import Mathlib

/-!
Verification of the boe-elections-dash data pipeline.

This file gives a shallow embedding of the reconciliation-and-aggregation
pipeline of the repository:
  * `data_cleaner.py` (`ElectionDataCleaner.load_and_clean`,
    `ElectionDataCleaner._extract_merged_districts`),
  * `map_utils.py` (`assign_bivariate_category` and the pivot/percentage
    computation of `load_and_merge_data`),
  * `census_data_cleaner.py` (`CensusDataCleaner.load_and_clean`,
    `CensusDataCleaner._fetch_county_data`),
and proves properties of those definitions.

Modelling conventions:
  * pandas DataFrames are lists of records (structures);
  * Python `int` is `ℤ`, float percentages are `ℚ`, float NaN is `Option.none`;
  * operations that can raise (`astype(int)` on a non-numeric string) return
    `Option`, `none` meaning the whole load raises;
  * `pandas.groupby` key order and `drop_duplicates` occurrence order are
    immaterial to every property proved here (all statements are sums or
    memberships), so the embedding uses `List.dedup` for the key lists.
-/

/-! ### Python string primitives used by the pipeline -/

/-- Characters accepted by Python `str.strip()` / `int()` whitespace skipping
(ASCII whitespace; the source data is ASCII). -/
def pyIsSpace (c : Char) : Bool :=
  c = ' ' ∨ c = '\t' ∨ c = '\n' ∨ c = '\r'

/-- Value of a list of decimal digit characters, `none` if the list is empty or
contains a non-digit.  Models the digit part of Python `int(str)`. -/
def digitsToNat? (l : List Char) : Option ℕ :=
  if l ≠ [] ∧ l.all Char.isDigit then
    some (l.foldl (fun a c => a * 10 + (c.toNat - 48)) 0)
  else none

/-- Python `int(s)`: strip surrounding whitespace, optional leading minus sign,
then decimal digits; anything else raises (`none`).  (A leading `+` is not
modelled; it never occurs in this data.) -/
def pyInt? (s : String) : Option ℤ :=
  let t := (((s.toList.dropWhile pyIsSpace).reverse.dropWhile pyIsSpace).reverse)
  match t with
  | '-' :: ds => (digitsToNat? ds).map (fun n => -(n : ℤ))
  | ds => (digitsToNat? ds).map (fun n => (n : ℤ))

/-- Python `s[-a:-b]` for `0 < b < a`: the slice from offset `-a` (inclusive) to
`-b` (exclusive), with Python's clamping of out-of-range negative indices to 0.
`data_cleaner.py` uses `note.str[-5:-3]`. -/
def pySliceNeg (s : String) (a b : ℕ) : String :=
  let cs := s.toList
  ⟨(cs.take (cs.length - b)).drop (cs.length - a)⟩

/-- Python `s[-n:]`: the last `n` characters (the whole string when it is
shorter).  `data_cleaner.py` uses `note.str[-2:]`. -/
def pyTail (s : String) (n : ℕ) : String :=
  let cs := s.toList
  ⟨cs.drop (cs.length - n)⟩

/-- Python `s.replace(',', '')` (used on `vote_count` to drop thousands
separators); replacing a single character by the empty string is filtering. -/
def removeCommas (s : String) : String :=
  ⟨s.toList.filter (fun c => c ≠ ',')⟩

/-- Models `re.sub(r'\s*\(.*\)', '', s)` from `load_and_clean`: if `s` contains
a `(` with some `)` after it, the greedy match spans from the whitespace run
preceding the first such `(` to the last `)` of the string, and is removed;
otherwise `s` is unchanged. -/
def stripParenNote (s : String) : String :=
  let cs := s.toList
  match cs.findIdx? (fun c => c = '('), cs.reverse.findIdx? (fun c => c = ')') with
  | some i, some jr =>
    let j := cs.length - 1 - jr
    if i < j then
      ⟨((cs.take i).reverse.dropWhile pyIsSpace).reverse ++ cs.drop (j + 1)⟩
    else s
  | _, _ => s

example : stripParenNote "Andrew M. Cuomo (Democratic)" = "Andrew M. Cuomo" := by decide
example : stripParenNote "Zohran Kwame Mamdani" = "Zohran Kwame Mamdani" := by decide
example : pySliceNeg "...ED 07 AD 03" 5 3 = "AD" := by decide
example : pyTail "...ED 07 AD 03" 2 = "03" := by decide
example : pyInt? "07" = some 7 := by decide
example : pyInt? "AD" = none := by decide
example : pyInt? (removeCommas "1,234") = some 1234 := by decide

/-- `Option`-valued traversal of a list: `some` of the list of results iff every
element maps to `some` (the embedding of "one bad row fails the whole load"). -/
def optionMapM (f : α → Option β) : List α → Option (List β)
  | [] => some []
  | a :: l => do
    let b ← f a
    let bs ← optionMapM f l
    pure (b :: bs)

theorem optionMapM_nil (f : α → Option β) : optionMapM f [] = some [] := rfl

theorem optionMapM_cons (f : α → Option β) (a : α) (l : List α) :
    optionMapM f (a :: l) =
      (f a).bind (fun b => (optionMapM f l).bind (fun bs => some (b :: bs))) := rfl

/-- If the traversal succeeds, every input element maps to `some` result that is
in the output list. -/
theorem optionMapM_mem {f : α → Option β} :
    ∀ {l : List α} {out : List β}, optionMapM f l = some out →
      ∀ a ∈ l, ∃ b, f a = some b ∧ b ∈ out := by
  intro l
  induction l with
  | nil => intro out _ a ha; exact absurd ha (List.not_mem_nil a)
  | cons x xs ih =>
    intro out hout a ha
    rw [optionMapM_cons] at hout
    obtain ⟨b, hfx, hrest⟩ := Option.bind_eq_some.mp hout
    obtain ⟨bs, hxs, hpure⟩ := Option.bind_eq_some.mp hrest
    obtain rfl : b :: bs = out := by simpa using hpure
    rcases List.mem_cons.mp ha with rfl | hmem
    · exact ⟨b, hfx, List.mem_cons_self _ _⟩
    · obtain ⟨b', hb', hmem'⟩ := ih hxs a hmem
      exact ⟨b', hb', List.mem_cons_of_mem _ hmem'⟩

/-! ### `data_cleaner.py`: election configurations and record types -/

/-- One entry of `ELECTION_CONFIGS`. -/
structure ElectionConfig where
  candidates : List String
  ballot_types : List String
  name_map : List (String × String)
  deriving DecidableEq

/-- `ELECTION_CONFIGS['mayor']`. -/
def mayorConfig : ElectionConfig where
  candidates := ["Andrew M. Cuomo", "Curtis A. Sliwa", "Eric L. Adams", "Irene Estrada",
    "Jim Walden", "Joseph Hernandez", "Zohran Kwame Mamdani", "Scattered"]
  ballot_types := ["Public Counter", "Absentee / Military", "Affidavit",
    "Manually Counted Emergency"]
  name_map := [("Andrew M. Cuomo", "Andrew Cuomo"), ("Curtis A. Sliwa", "Curtis Sliwa"),
    ("Eric L. Adams", "Eric Adams"), ("Zohran Kwame Mamdani", "Zohran Mamdani")]

/-- `ELECTION_CONFIGS['president']`. -/
def presidentConfig : ElectionConfig where
  candidates := ["Donald J. Trump / JD Vance", "Kamala D. Harris / Tim Walz", "Scattered"]
  ballot_types := ["Public Counter", "Absentee / Military", "Affidavit",
    "Manually Counted Emergency", "Federal"]
  name_map := [("Donald J. Trump / JD Vance", "Trump"), ("Kamala D. Harris / Tim Walz", "Harris")]

/-- A raw tally row as read by `pd.read_csv` (columns 11,12,13,14,20,21), with
the district numbers already through `astype(int)` and the vote count still the
raw string (possibly thousands-separated). -/
structure RawTallyRow where
  assembly_district : ℤ
  election_district : ℤ
  county : String
  note : String
  vote_choice : String
  vote_count : String
  deriving DecidableEq

/-- A tally row after `df['vote_count'].str.replace(',', '').astype(int)`. -/
structure TallyRow where
  assembly_district : ℤ
  election_district : ℤ
  county : String
  note : String
  vote_choice : String
  vote_count : ℤ
  deriving DecidableEq

/-- The numeric conversion of one raw row (`none` = `astype(int)` raises, which
aborts the whole load). -/
def parseTallyRow (r : RawTallyRow) : Option TallyRow :=
  (pyInt? (removeCommas r.vote_count)).map (fun n =>
    { assembly_district := r.assembly_district, election_district := r.election_district
      county := r.county, note := r.note, vote_choice := r.vote_choice, vote_count := n })

/-- A cleaned in-play row after the `note` column is dropped. -/
structure CleanRow where
  assembly_district : ℤ
  election_district : ℤ
  county : String
  vote_choice : String
  vote_count : ℤ
  deriving DecidableEq

/-- One row of the `merged_districts` output (columns after the
rename/drop in `_extract_merged_districts`). -/
structure MergedDistrictRow where
  source_ad : ℤ
  source_ed : ℤ
  county : String
  reported_ed : ℤ
  reported_ad : ℤ
  deriving DecidableEq

/-- An output row of `df_candidate` / `df_ballot_type` (cleaned row plus the
synthetic `ElectDist` column). -/
structure OutRow where
  assembly_district : ℤ
  election_district : ℤ
  county : String
  vote_choice : String
  vote_count : ℤ
  ElectDist : ℤ
  deriving DecidableEq

/-- `ElectDist = assembly_district * 1000 + election_district`
(`data_cleaner.py` lines 74-75). -/
def electDist (ad ed : ℤ) : ℤ := ad * 1000 + ed

/-- Adds the `ElectDist` column to a cleaned row. -/
def addElectDist (r : CleanRow) : OutRow :=
  { assembly_district := r.assembly_district, election_district := r.election_district
    county := r.county, vote_choice := r.vote_choice, vote_count := r.vote_count
    ElectDist := electDist r.assembly_district r.election_district }

/-! ### `_extract_merged_districts` -/

/-- The four columns selected before `drop_duplicates`. -/
def mergedKey (r : TallyRow) : ℤ × ℤ × String × String :=
  (r.assembly_district, r.election_district, r.county, r.note)

/-- `ElectionDataCleaner._extract_merged_districts`: keep the rows whose note is
not `'IN-PLAY'`, deduplicate on (assembly_district, election_district, county,
note), and parse `note[-5:-3]` as `reported_ed` and `note[-2:]` as
`reported_ad`; `none` when some slice is not an integer (`astype(int)` raises,
failing the whole load). -/
def extract_merged_districts (rows : List TallyRow) : Option (List MergedDistrictRow) :=
  let merged := rows.filter (fun r => r.note ≠ "IN-PLAY")
  let uniq := (merged.map mergedKey).dedup
  optionMapM (fun k => do
    let ed ← pyInt? (pySliceNeg k.2.2.2 5 3)
    let ad ← pyInt? (pyTail k.2.2.2 2)
    pure { source_ad := k.1, source_ed := k.2.1, county := k.2.2.1
           reported_ed := ed, reported_ad := ad }) uniq

/-! ### `load_and_clean` -/

/-- The grouping key of `df.groupby(['assembly_district', 'election_district',
'county', 'vote_choice'])`. -/
def cleanKey (r : CleanRow) : ℤ × ℤ × String × String :=
  (r.assembly_district, r.election_district, r.county, r.vote_choice)

/-- `groupby(...)['vote_count'].sum()`: one row per distinct key carrying the
sum of `vote_count` over the rows with that key. -/
def groupSum (rows : List CleanRow) : List CleanRow :=
  ((rows.map cleanKey).dedup).map (fun k =>
    { assembly_district := k.1, election_district := k.2.1, county := k.2.2.1
      vote_choice := k.2.2.2
      vote_count := ((rows.filter (fun r => cleanKey r = k)).map (fun r => r.vote_count)).sum })

/-- `Series.replace(name_map)` on `vote_choice`: exact-match renaming. -/
def applyNameMap (m : List (String × String)) (s : String) : String :=
  match m.find? (fun p => p.1 = s) with
  | some p => p.2
  | none => s

/-- Drops the `note` column and strips the parenthetical ballot-line suffix
from `vote_choice` (`df['vote_choice'].str.replace(r'\s*\(.*\)', '', regex=True)`). -/
def toCleanRow (r : TallyRow) : CleanRow :=
  { assembly_district := r.assembly_district, election_district := r.election_district
    county := r.county, vote_choice := stripParenNote r.vote_choice
    vote_count := r.vote_count }

/-- `df[df['note'] == 'IN-PLAY']` followed by the suffix strip. -/
def cleanedInPlay (parsed : List TallyRow) : List CleanRow :=
  (parsed.filter (fun r => r.note = "IN-PLAY")).map toCleanRow

/-- `df_ballot_type`: the grouped rows whose `vote_choice` is a configured
administrative ballot-type label, with `ElectDist` added. -/
def ballotFrame (cfg : ElectionConfig) (parsed : List TallyRow) : List OutRow :=
  (((groupSum (cleanedInPlay parsed)).filter
    (fun g => g.vote_choice ∈ cfg.ballot_types)).map addElectDist)

/-- `df_candidate`: the grouped rows whose `vote_choice` is in the configured
candidate roster, renamed through the canonical `name_map` (when the map is
non-empty, which it is for both configured elections), with `ElectDist`. -/
def candFrame (cfg : ElectionConfig) (parsed : List TallyRow) : List OutRow :=
  let cand := (groupSum (cleanedInPlay parsed)).filter
    (fun g => g.vote_choice ∈ cfg.candidates)
  let cand := if cfg.name_map ≠ [] then
      cand.map (fun g => { g with vote_choice := applyNameMap cfg.name_map g.vote_choice })
    else cand
  cand.map addElectDist

/-- `ElectionDataCleaner.load_and_clean`: numeric conversion, merged-district
extraction, in-play filter, parenthetical-suffix strip, group-and-sum, split
into ballot-type and candidate frames, canonical renaming, `ElectDist`.
Returns `(df_candidate, df_ballot_type, merged_districts)`; `none` when a
numeric conversion raises. -/
def load_and_clean (cfg : ElectionConfig) (rows : List RawTallyRow) :
    Option (List OutRow × List OutRow × List MergedDistrictRow) := do
  let parsed ← optionMapM parseTallyRow rows
  let merged ← extract_merged_districts parsed
  pure (candFrame cfg parsed, ballotFrame cfg parsed, merged)

/-! ### `map_utils.py`: bivariate classification -/

/-- `BIVARIATE_CATEGORY_ORDER` from `map_utils.py` (the fixed category set of
the classifier; also the key set of `BIVARIATE_COLORS`). -/
def BIVARIATE_CATEGORY_ORDER : List String :=
  ["High M / High T", "High M / Low T", "Low M / High T", "Low M / Low T"]

/-- `assign_bivariate_category(mamdani_pct, trump_pct, threshold=50.0)` from
`map_utils.py`.  The percentage arguments are floats that may be NaN
(`Option.none` here; `pd.isna` is the `none` test); `threshold` is a single
shared cut-point, default `50.0` at every call site. -/
def assign_bivariate_category (mamdani_pct trump_pct : Option ℚ) (threshold : ℚ) : String :=
  match mamdani_pct, trump_pct with
  | none, _ => "Low M / Low T"
  | some _, none => "Low M / Low T"
  | some m, some t =>
    if m > threshold ∧ t > threshold then "High M / High T"
    else if m > threshold ∧ t ≤ threshold then "High M / Low T"
    else if m ≤ threshold ∧ t > threshold then "Low M / High T"
    else "Low M / Low T"

theorem assign_bivariate_category_some_some (m t thr : ℚ) :
    assign_bivariate_category (some m) (some t) thr =
      (if m > thr ∧ t > thr then "High M / High T"
       else if m > thr ∧ t ≤ thr then "High M / Low T"
       else if m ≤ thr ∧ t > thr then "Low M / High T"
       else "Low M / Low T") := rfl

/-- Every value the classifier returns is one of the four fixed labels. -/
theorem assign_bivariate_category_mem (m t : Option ℚ) (thr : ℚ) :
    assign_bivariate_category m t thr ∈ BIVARIATE_CATEGORY_ORDER := by
  rcases m with _ | m
  · simp [assign_bivariate_category, BIVARIATE_CATEGORY_ORDER]
  rcases t with _ | t
  · simp [assign_bivariate_category, BIVARIATE_CATEGORY_ORDER]
  rw [assign_bivariate_category_some_some, BIVARIATE_CATEGORY_ORDER]
  split_ifs <;> simp

/-- Modelled from the spec: the 9-category bivariate scheme of §4.4 — each axis
is ternary-split at two independent, axis-specific cut-points (`low < high`),
the value classifying Low when `≤ low`, Med when in `(low, high]`, High when
`> high`; categories are the 3×3 cross-product.  No such classifier exists in
`src/`; the dashboard's classifier is the 4-category
`assign_bivariate_category` above, even though the UI text in `layouts.py`
describes "3x3 bivariate choropleth maps" with "nine distinct color cells". -/
def assign_bivariate_category_9spec (mamdani_pct trump_pct : ℚ)
    (mCuts tCuts : ℚ × ℚ) : String :=
  let mBand := if mamdani_pct ≤ mCuts.1 then "Low M"
    else if mamdani_pct ≤ mCuts.2 then "Med M" else "High M"
  let tBand := if trump_pct ≤ tCuts.1 then "Low T"
    else if trump_pct ≤ tCuts.2 then "Med T" else "High T"
  mBand ++ " / " ++ tBand

/-! ### `map_utils.py` / `load_and_merge_data`: pivot and percentage columns -/

/-- `MAYORAL_CANDIDATES` from `config.py`. -/
def MAYORAL_CANDIDATES : List String := ["Zohran Mamdani", "Andrew Cuomo", "Curtis Sliwa"]

/-- numpy/pandas round-half-to-even of a real value to an integer (the rounding
used by `Series.round`). -/
def roundHalfEven (x : ℚ) : ℤ :=
  let n := ⌊x⌋
  if x - n < 1 / 2 then n
  else if 1 / 2 < x - n then n + 1
  else if n % 2 = 0 then n else n + 1

/-- `Series.round(2)`: round to 2 decimal places, half to even. -/
def round2 (x : ℚ) : ℚ := (roundHalfEven (x * 100) : ℚ) / 100

/-- The column set of `df.pivot_table(index='ElectDist', columns='vote_choice',
values='vote_count', aggfunc='sum')`: the distinct `vote_choice` values of the
input frame. -/
def pivotColumns (rows : List OutRow) : List String :=
  (rows.map (fun r => r.vote_choice)).dedup

/-- One cell of the pivot table after `fillna(0)`: the summed `vote_count` for
an (ElectDist, vote_choice) pair (0 when the combination is absent). -/
def pivotCell (rows : List OutRow) (d : ℤ) (c : String) : ℤ :=
  ((rows.filter (fun r => r.ElectDist = d ∧ r.vote_choice = c)).map
    (fun r => r.vote_count)).sum

/-- `mayor_pivot['mayor_total'] = mayor_pivot.sum(axis=1)`: the row sum of the
pivot table over its candidate columns. -/
def pivotRowTotal (rows : List OutRow) (d : ℤ) : ℤ :=
  ((pivotColumns rows).map (pivotCell rows d)).sum

/-- The per-candidate percentage column of `load_and_merge_data`
(`map_utils.py` lines 74-79): when the candidate is a pivot column,
`(mayor_pivot[candidate] / mayor_pivot['mayor_total'] * 100).round(2)`, where a
zero row total makes the float division `0/0 = NaN` (`none`; the numerator is 0
whenever the total is, since cells are non-negative sums bounded by the total);
when the candidate column is absent the whole column is set to the scalar `0`.
The same computation produces `trump_pct`/`harris_pct` from the presidential
pivot (lines 91-98). -/
def candidate_pct (rows : List OutRow) (c : String) (d : ℤ) : Option ℚ :=
  if c ∈ pivotColumns rows then
    if pivotRowTotal rows d = 0 then none
    else some (round2 ((pivotCell rows d c : ℚ) / (pivotRowTotal rows d : ℚ) * 100))
  else some 0

/-! ### `census_data_cleaner.py` -/

/-- `NYC_COUNTIES` from `census_data_cleaner.py` (county name, FIPS code). -/
def NYC_COUNTIES : List (String × String) :=
  [("New York", "061"), ("Kings", "047"), ("Queens", "081"),
   ("Bronx", "005"), ("Richmond", "085")]

/-- One tract row of a successful Census API response, after the header row is
split off and the variable columns are through
`pd.to_numeric(..., errors='coerce')` (`none` = NaN: absent or unparseable).
`vals` maps a Census variable code (e.g. `"B03002_001E"`) to its value. -/
structure TractRow where
  geoid : String
  vals : String → Option ℚ

/-- The outcome of the HTTP request of `_fetch_county_data` for one county:
either a parsed response (the data rows; empty when `len(data) < 2`) or a
`requests.exceptions.RequestException` raised in transport. -/
inductive FetchOutcome where
  | ok (rows : List TractRow)
  | transportError

/-- `CensusDataCleaner._fetch_county_data`: a transport error is caught and
yields an empty frame (logged, not fatal); a successful response yields its
data rows. -/
def fetch_county_data : FetchOutcome → List TractRow
  | .ok rows => rows
  | .transportError => []

/-- `CensusDataCleaner._fetch_all_nyc_data`: fetch each of the 5 NYC counties
in order, tag surviving rows with the county name (`df['county'] = county_name`)
and concatenate.  (The source appends only non-empty frames before `pd.concat`;
concatenating the empty frames too gives the same rows.) -/
def fetch_all_nyc_data (outcomes : String → FetchOutcome) : List (String × TractRow) :=
  (NYC_COUNTIES.map (fun cw =>
    (fetch_county_data (outcomes cw.1)).map (fun r => (cw.1, r)))).flatten

/-- `CensusDataCleaner._clean_data`: keep rows whose total population
`B03002_001E` is present and positive, then `fillna(0)` on the numeric
columns. -/
def clean_data (rows : List (String × TractRow)) : List (String × TractRow) :=
  (rows.filter (fun cr => match cr.2.vals "B03002_001E" with
    | some v => 0 < v
    | none => false)).map (fun cr =>
      (cr.1, { geoid := cr.2.geoid, vals := fun code => some ((cr.2.vals code).getD 0) }))

/-- The `B15003_002E`..`B15003_009E` column list of `_process_education_data`
(less than high school). -/
def lessThanHsCodes : List String :=
  ["B15003_002E", "B15003_003E", "B15003_004E", "B15003_005E",
   "B15003_006E", "B15003_007E", "B15003_008E", "B15003_009E"]

/-- The bachelor's-or-higher column list of `_process_education_data`. -/
def bachPlusCodes : List String :=
  ["B15003_022E", "B15003_023E", "B15003_024E", "B15003_025E"]

/-- The "other race" column list of `_process_race_data`. -/
def otherRaceCodes : List String :=
  ["B03002_005E", "B03002_007E", "B03002_008E", "B03002_009E"]

/-- A numeric cell after `_clean_data`'s `fillna(0)`. -/
def tractVal (r : TractRow) (code : String) : ℚ := (r.vals code).getD 0

/-- The guarded denominator `total.fillna(0).replace(0, 1)` used by both
percentage derivations (the deliberate divide-by-zero guard). -/
def safeDenom (r : TractRow) (code : String) : ℚ :=
  if tractVal r code = 0 then 1 else tractVal r code

/-- `(sum of constituent counts) / guarded denominator * 100`, the percentage
formula of `_process_education_data` / `_process_race_data`. -/
def tractPct (r : TractRow) (codes : List String) (denomCode : String) : ℚ :=
  (codes.map (tractVal r)).sum / safeDenom r denomCode * 100

/-- `idxmax(axis=1)` over an ordered list of (label, value) pairs: the label of
the first occurrence of the maximum. -/
def idxmaxFirst : List (String × ℚ) → String
  | [] => "unknown"
  | p :: rest => (rest.foldl (fun best q => if best.2 < q.2 then q else best) p).1

/-- One output row of `CensusDataCleaner.load_and_clean` (the columns selected
by `_select_final_columns`, for one tract). -/
structure DemographicRecord where
  geoid : String
  county : String
  median_income : ℚ
  pct_less_than_hs : ℚ
  pct_hs_only : ℚ
  pct_some_college : ℚ
  pct_associates : ℚ
  pct_bachelors_plus : ℚ
  pct_white : ℚ
  pct_black : ℚ
  pct_asian : ℚ
  pct_hispanic : ℚ
  pct_other : ℚ
  majority_race : String

/-- The education/race percentage derivation (`_process_education_data`,
`_process_race_data`) and column selection (`_select_final_columns`) for one
cleaned tract row. -/
def processTract (county : String) (r : TractRow) : DemographicRecord :=
  let pct_white := tractPct r ["B03002_003E"] "B03002_001E"
  let pct_black := tractPct r ["B03002_004E"] "B03002_001E"
  let pct_asian := tractPct r ["B03002_006E"] "B03002_001E"
  let pct_hispanic := tractPct r ["B03002_012E"] "B03002_001E"
  let pct_other := tractPct r otherRaceCodes "B03002_001E"
  { geoid := r.geoid
    county := county
    median_income := tractVal r "B19013_001E"
    pct_less_than_hs := tractPct r lessThanHsCodes "B15003_001E"
    pct_hs_only := tractPct r ["B15003_017E"] "B15003_001E"
    pct_some_college := tractPct r ["B15003_018E"] "B15003_001E"
    pct_associates := tractPct r ["B15003_020E"] "B15003_001E"
    pct_bachelors_plus := tractPct r bachPlusCodes "B15003_001E"
    pct_white := pct_white
    pct_black := pct_black
    pct_asian := pct_asian
    pct_hispanic := pct_hispanic
    pct_other := pct_other
    majority_race := (idxmaxFirst
      [("white", pct_white), ("black", pct_black), ("asian", pct_asian),
       ("hispanic", pct_hispanic), ("other", pct_other)]) }

/-- `CensusDataCleaner.load_and_clean`: fetch all counties; if the combined
frame is empty raise `ValueError("Failed to fetch Census data from API")`
(`Except.error`); otherwise clean and derive the demographic records. -/
def census_load_and_clean (outcomes : String → FetchOutcome) :
    Except String (List DemographicRecord) :=
  if (fetch_all_nyc_data outcomes).isEmpty then
    .error "Failed to fetch Census data from API"
  else
    .ok ((clean_data (fetch_all_nyc_data outcomes)).map (fun cr => processTract cr.1 cr.2))

/-! ### List-sum helper lemmas -/

theorem sum_map_filter_split (p : α → Bool) (f : α → ℤ) (l : List α) :
    ((l.filter p).map f).sum + ((l.filter (fun a => !p a)).map f).sum = (l.map f).sum := by
  induction l with
  | nil => simp
  | cons x xs ih =>
    cases hx : p x <;> simp [List.filter_cons, hx] <;> omega

theorem sum_map_ite_key [DecidableEq κ] (keys : List κ) (a : κ) (c : ℤ)
    (hnd : keys.Nodup) (hmem : a ∈ keys) :
    (keys.map (fun k => if a = k then c else 0)).sum = c := by
  induction keys with
  | nil => simp at hmem
  | cons k ks ih =>
    rcases List.mem_cons.mp hmem with rfl | hmem'
    · have hnot : a ∉ ks := (List.nodup_cons.mp hnd).1
      have : (ks.map (fun k => if a = k then c else 0)).sum = 0 := by
        rw [List.sum_eq_zero]
        intro x hx
        obtain ⟨k', hk', rfl⟩ := List.mem_map.mp hx
        have : a ≠ k' := fun h => hnot (h ▸ hk')
        simp [this]
      simp [this]
    · have hne : a ≠ k := by
        rintro rfl
        exact (List.nodup_cons.mp hnd).1 hmem'
      simp only [List.map_cons, List.sum_cons, hne, if_false, ite_false]
      rw [ih (List.nodup_cons.mp hnd).2 hmem']
      omega

theorem sum_map_addZ (g h : κ → ℤ) (keys : List κ) :
    (keys.map (fun k => g k + h k)).sum = (keys.map g).sum + (keys.map h).sum := by
  induction keys with
  | nil => simp
  | cons k ks ih => simp only [List.map_cons, List.sum_cons, ih]; omega

/-- Fiberwise summation: summing the per-key fiber sums over a duplicate-free
key list covering every row's key recovers the total sum (the core fact behind
"`groupby(...).sum()` preserves column totals"). -/
theorem sum_fibers [DecidableEq κ] (key : α → κ) (f : α → ℤ)
    (keys : List κ) (rows : List α) (hnd : keys.Nodup)
    (hcov : ∀ r ∈ rows, key r ∈ keys) :
    (keys.map (fun k => ((rows.filter (fun r => key r = k)).map f).sum)).sum
      = (rows.map f).sum := by
  induction rows with
  | nil => simp
  | cons r rest ih =>
    have hstep : ∀ k : κ,
        (((r :: rest).filter (fun x => key x = k)).map f).sum
          = (if key r = k then f r else 0)
            + ((rest.filter (fun x => key x = k)).map f).sum := by
      intro k
      by_cases hk : key r = k <;>
        simp [List.filter_cons, hk]
    calc (keys.map (fun k => (((r :: rest).filter (fun x => key x = k)).map f).sum)).sum
        = (keys.map (fun k => (if key r = k then f r else 0)
            + ((rest.filter (fun x => key x = k)).map f).sum)).sum := by
          exact congrArg List.sum (List.map_congr_left (fun k _ => hstep k))
      _ = (keys.map (fun k => if key r = k then f r else 0)).sum
            + (keys.map (fun k => ((rest.filter (fun x => key x = k)).map f).sum)).sum := by
          exact sum_map_addZ _ _ keys
      _ = f r + (rest.map f).sum := by
          rw [ih (fun x hx => hcov x (List.mem_cons_of_mem r hx))]
          congr 1
          have := sum_map_ite_key keys (key r) (f r) hnd (hcov r (List.mem_cons_self r rest))
          calc (keys.map (fun k => if key r = k then f r else 0)).sum
              = (keys.map (fun k => if key r = k then f r else 0)).sum := rfl
            _ = f r := this
      _ = ((r :: rest).map f).sum := by simp

/-- `vote_count` column total of a parsed raw frame. -/
def tallySum (l : List TallyRow) : ℤ := (l.map (fun r => r.vote_count)).sum

/-- `vote_count` column total of a cleaned frame. -/
def cleanSum (l : List CleanRow) : ℤ := (l.map (fun r => r.vote_count)).sum

/-- `vote_count` column total of an output frame. -/
def outSum (l : List OutRow) : ℤ := (l.map (fun r => r.vote_count)).sum

/-- Fiberwise summation restricted to the keys satisfying `pk`: summing the
per-key fiber sums over those keys equals the plain sum over the rows whose key
satisfies `pk`. -/
theorem sum_fibers_filtered [DecidableEq κ] (key : α → κ) (f : α → ℤ) (pk : κ → Bool)
    (rows : List α) :
    (((rows.map key).dedup.filter pk).map
        (fun k => ((rows.filter (fun r => key r = k)).map f).sum)).sum
      = ((rows.filter (fun r => pk (key r))).map f).sum := by
  have hcongr : ∀ k ∈ (rows.map key).dedup.filter pk,
      ((rows.filter (fun r => key r = k)).map f).sum
        = (((rows.filter (fun r => pk (key r))).filter (fun r => key r = k)).map f).sum := by
    intro k hk
    have hPk : pk k = true := (List.mem_filter.mp hk).2
    congr 2
    rw [List.filter_filter]
    refine (List.filter_congr ?_).symm
    intro r _
    by_cases hkey : key r = k
    · simp [hkey, hPk]
    · simp [hkey]
  rw [List.map_congr_left hcongr]
  exact sum_fibers key f _ _ ((List.nodup_dedup _).filter pk)
    (fun r hr => by
      rcases List.mem_filter.mp hr with ⟨hrow, hpk⟩
      exact List.mem_filter.mpr ⟨List.mem_dedup.mpr (List.mem_map_of_mem key hrow), hpk⟩)

/-- `groupby(...).sum()` then filtering on a predicate of the `vote_choice`
key column has the same `vote_count` total as filtering the ungrouped rows. -/
theorem groupSum_filter_sum (rows : List CleanRow) (P : String → Prop) [DecidablePred P] :
    cleanSum ((groupSum rows).filter (fun g => P g.vote_choice))
      = cleanSum (rows.filter (fun r => P r.vote_choice)) := by
  unfold cleanSum groupSum
  rw [List.filter_map, List.map_map]
  exact sum_fibers_filtered cleanKey (fun r => r.vote_count)
    (fun k => decide (P k.2.2.2)) rows

theorem outSum_map_addElectDist (l : List CleanRow) :
    outSum (l.map addElectDist) = cleanSum l := by
  unfold outSum cleanSum
  rw [List.map_map]
  rfl

theorem cleanSum_map_rename (m : List (String × String)) (l : List CleanRow) :
    cleanSum (l.map (fun g => { g with vote_choice := applyNameMap m g.vote_choice }))
      = cleanSum l := by
  unfold cleanSum
  rw [List.map_map]
  rfl

/-- Filtering the cleaned in-play rows on a predicate of the canonicalized
`vote_choice` sums the same as filtering the parsed in-play rows on the
stripped choice. -/
theorem cleaned_filter_sum (parsed : List TallyRow) (P : String → Prop) [DecidablePred P] :
    cleanSum ((cleanedInPlay parsed).filter (fun r => P r.vote_choice))
      = tallySum ((parsed.filter (fun r => r.note = "IN-PLAY")).filter
          (fun r => P (stripParenNote r.vote_choice))) := by
  unfold cleanedInPlay cleanSum tallySum
  rw [List.filter_map, List.map_map]
  rfl

/-- The candidate frame's `vote_count` total equals the total over the in-play
parsed rows whose stripped `vote_choice` is in the candidate roster (renaming
and the `ElectDist` column change no counts; grouping preserves sums). -/
theorem candFrame_sum (cfg : ElectionConfig) (parsed : List TallyRow) :
    outSum (candFrame cfg parsed)
      = tallySum ((parsed.filter (fun r => r.note = "IN-PLAY")).filter
          (fun r => stripParenNote r.vote_choice ∈ cfg.candidates)) := by
  have h1 : outSum (candFrame cfg parsed)
      = cleanSum ((groupSum (cleanedInPlay parsed)).filter
          (fun g => g.vote_choice ∈ cfg.candidates)) := by
    unfold candFrame
    dsimp only
    by_cases h : cfg.name_map ≠ []
    · rw [if_pos h, outSum_map_addElectDist]
      exact cleanSum_map_rename _ _
    · rw [if_neg h]
      exact outSum_map_addElectDist _
  rw [h1, groupSum_filter_sum (cleanedInPlay parsed) (fun s => s ∈ cfg.candidates)]
  exact cleaned_filter_sum parsed (fun s => s ∈ cfg.candidates)

/-- The ballot-type frame's `vote_count` total equals the total over the
in-play parsed rows whose stripped `vote_choice` is a ballot-type label. -/
theorem ballotFrame_sum (cfg : ElectionConfig) (parsed : List TallyRow) :
    outSum (ballotFrame cfg parsed)
      = tallySum ((parsed.filter (fun r => r.note = "IN-PLAY")).filter
          (fun r => stripParenNote r.vote_choice ∈ cfg.ballot_types)) := by
  unfold ballotFrame
  rw [outSum_map_addElectDist,
    groupSum_filter_sum (cleanedInPlay parsed) (fun s => s ∈ cfg.ballot_types)]
  exact cleaned_filter_sum parsed (fun s => s ∈ cfg.ballot_types)

/-- Success of `load_and_clean` determines its three outputs from the parsed
rows. -/
theorem load_and_clean_some {cfg : ElectionConfig} {rows : List RawTallyRow}
    {parsed : List TallyRow} {cand ballot : List OutRow} {merged : List MergedDistrictRow}
    (hparse : optionMapM parseTallyRow rows = some parsed)
    (hload : load_and_clean cfg rows = some (cand, ballot, merged)) :
    cand = candFrame cfg parsed ∧ ballot = ballotFrame cfg parsed ∧
      extract_merged_districts parsed = some merged := by
  unfold load_and_clean at hload
  obtain ⟨parsed', hp', hrest⟩ := Option.bind_eq_some.mp hload
  have hpe : parsed' = parsed := by
    rw [hparse] at hp'
    exact (Option.some.inj hp').symm
  subst hpe
  obtain ⟨m, hm, h3⟩ := Option.bind_eq_some.mp hrest
  have h4 := Option.some.inj h3
  rw [Prod.mk.injEq, Prod.mk.injEq] at h4
  obtain ⟨hc, hb, hmm⟩ := h4
  exact ⟨hc.symm, hb.symm, hmm ▸ hm⟩

/-- C1: Vote conservation.  For every raw tally input that loads successfully,
the `vote_count` total of the candidate frame, plus the ballot-type frame, plus
the raw rows underlying the MergedDistrictRecord rows (the rows whose note is
not `'IN-PLAY'`; the derived merged records themselves carry no `vote_count`
column, so their contribution is measured on their source rows), plus the
dropped rows whose canonicalized `vote_choice` matches neither the ballot-type
set nor the candidate roster (the documented unknown-vote-choice exception),
equals the `vote_count` total of the raw input.  The rosters must be disjoint,
as they are in both entries of `ELECTION_CONFIGS`. -/
theorem vote_conservation (cfg : ElectionConfig) (rows : List RawTallyRow)
    (parsed : List TallyRow) (cand ballot : List OutRow) (merged : List MergedDistrictRow)
    (hparse : optionMapM parseTallyRow rows = some parsed)
    (hload : load_and_clean cfg rows = some (cand, ballot, merged))
    (hdisj : ∀ s ∈ cfg.ballot_types, s ∉ cfg.candidates) :
    outSum cand + outSum ballot
      + tallySum (parsed.filter (fun r => r.note ≠ "IN-PLAY"))
      + tallySum ((parsed.filter (fun r => r.note = "IN-PLAY")).filter
          (fun r => stripParenNote r.vote_choice ∉ cfg.ballot_types
            ∧ stripParenNote r.vote_choice ∉ cfg.candidates))
      = tallySum parsed := by
  obtain ⟨hc, hb, -⟩ := load_and_clean_some hparse hload
  subst hc
  subst hb
  rw [candFrame_sum, ballotFrame_sum]
  have hinp : tallySum (parsed.filter (fun r => r.note = "IN-PLAY"))
      + tallySum (parsed.filter (fun r => r.note ≠ "IN-PLAY")) = tallySum parsed := by
    have h2 : parsed.filter (fun r => !(decide (r.note = "IN-PLAY")))
        = parsed.filter (fun r => r.note ≠ "IN-PLAY") := by
      refine List.filter_congr ?_
      intro r _
      simp
    rw [← h2]
    exact sum_map_filter_split (fun r => decide (r.note = "IN-PLAY")) _ parsed
  set S := parsed.filter (fun r => r.note = "IN-PLAY") with hS
  have hsplitc :
      tallySum (S.filter (fun r => stripParenNote r.vote_choice ∈ cfg.candidates))
        + tallySum (S.filter
            (fun r => !(decide (stripParenNote r.vote_choice ∈ cfg.candidates))))
        = tallySum S :=
    sum_map_filter_split _ _ S
  have hsplitb :
      tallySum ((S.filter
            (fun r => !(decide (stripParenNote r.vote_choice ∈ cfg.candidates)))).filter
          (fun r => stripParenNote r.vote_choice ∈ cfg.ballot_types))
        + tallySum ((S.filter
            (fun r => !(decide (stripParenNote r.vote_choice ∈ cfg.candidates)))).filter
          (fun r => !(decide (stripParenNote r.vote_choice ∈ cfg.ballot_types))))
        = tallySum (S.filter
            (fun r => !(decide (stripParenNote r.vote_choice ∈ cfg.candidates)))) :=
    sum_map_filter_split _ _ _
  have e5 : (S.filter
        (fun r => !(decide (stripParenNote r.vote_choice ∈ cfg.candidates)))).filter
          (fun r => stripParenNote r.vote_choice ∈ cfg.ballot_types)
      = S.filter (fun r => stripParenNote r.vote_choice ∈ cfg.ballot_types) := by
    rw [List.filter_filter]
    refine List.filter_congr ?_
    intro r _
    by_cases hbt : stripParenNote r.vote_choice ∈ cfg.ballot_types
    · have hnc : stripParenNote r.vote_choice ∉ cfg.candidates := hdisj _ hbt
      simp [hbt, hnc]
    · simp [hbt]
  have e6 : (S.filter
        (fun r => !(decide (stripParenNote r.vote_choice ∈ cfg.candidates)))).filter
          (fun r => !(decide (stripParenNote r.vote_choice ∈ cfg.ballot_types)))
      = S.filter (fun r => stripParenNote r.vote_choice ∉ cfg.ballot_types
          ∧ stripParenNote r.vote_choice ∉ cfg.candidates) := by
    rw [List.filter_filter]
    refine List.filter_congr ?_
    intro r _
    by_cases hbt : stripParenNote r.vote_choice ∈ cfg.ballot_types <;>
      by_cases hcd : stripParenNote r.vote_choice ∈ cfg.candidates <;>
      simp [hbt, hcd]
  rw [e5, e6] at hsplitb
  omega

/-! ### Bounds for round-half-even -/

theorem roundHalfEven_nonneg (x : ℚ) (hx : 0 ≤ x) : 0 ≤ roundHalfEven x := by
  unfold roundHalfEven
  have h0 : (0 : ℤ) ≤ ⌊x⌋ := Int.floor_nonneg.mpr hx
  dsimp only
  split_ifs <;> omega

theorem roundHalfEven_le (x : ℚ) (m : ℤ) (h : x ≤ (m : ℚ)) : roundHalfEven x ≤ m := by
  unfold roundHalfEven
  have hfl : ⌊x⌋ ≤ m := by
    have h1 := Int.floor_le_floor h
    rwa [Int.floor_intCast] at h1
  have hup : ¬ x - ⌊x⌋ < 1 / 2 → ⌊x⌋ < m := by
    intro h1
    have hge : (1 : ℚ) / 2 ≤ x - ⌊x⌋ := not_lt.mp h1
    rcases lt_or_eq_of_le hfl with hlt | heq
    · exact hlt
    · exfalso
      have hcast : ((⌊x⌋ : ℚ)) = (m : ℚ) := by rw [heq]
      linarith
  dsimp only
  split_ifs with h1 h2 h3
  · exact hfl
  · exact hup h1
  · exact hfl
  · exact hup h1

theorem round2_bounds (x : ℚ) (h0 : 0 ≤ x) (h100 : x ≤ 100) :
    0 ≤ round2 x ∧ round2 x ≤ 100 := by
  unfold round2
  constructor
  · apply div_nonneg _ (by norm_num)
    have := roundHalfEven_nonneg (x * 100) (by positivity)
    exact_mod_cast this
  · have h1 : roundHalfEven (x * 100) ≤ 10000 :=
      roundHalfEven_le (x * 100) 10000 (by push_cast; linarith)
    have h2 : ((roundHalfEven (x * 100) : ℚ)) ≤ 10000 := by exact_mod_cast h1
    linarith

/-! ### Claims -/

/-- Concrete input for the vote-conservation witness: a candidate row, a
ballot-type row, an unknown-vote-choice row and a merged-district row. -/
def c1Rows : List RawTallyRow :=
  [{ assembly_district := 65, election_district := 12, county := "New York",
     note := "IN-PLAY", vote_choice := "Zohran Kwame Mamdani", vote_count := "1,234" },
   { assembly_district := 65, election_district := 12, county := "New York",
     note := "IN-PLAY", vote_choice := "Public Counter", vote_count := "10" },
   { assembly_district := 65, election_district := 12, county := "New York",
     note := "IN-PLAY", vote_choice := "Mystery Person", vote_count := "3" },
   { assembly_district := 10, election_district := 5, county := "Kings",
     note := "combined into 07 03", vote_choice := "Zohran Kwame Mamdani", vote_count := "5" }]

/-- The parsed form of `c1Rows`. -/
def c1Parsed : List TallyRow :=
  [{ assembly_district := 65, election_district := 12, county := "New York",
     note := "IN-PLAY", vote_choice := "Zohran Kwame Mamdani", vote_count := 1234 },
   { assembly_district := 65, election_district := 12, county := "New York",
     note := "IN-PLAY", vote_choice := "Public Counter", vote_count := 10 },
   { assembly_district := 65, election_district := 12, county := "New York",
     note := "IN-PLAY", vote_choice := "Mystery Person", vote_count := 3 },
   { assembly_district := 10, election_district := 5, county := "Kings",
     note := "combined into 07 03", vote_choice := "Zohran Kwame Mamdani", vote_count := 5 }]

/-- The candidate frame produced from `c1Rows`. -/
def c1Cand : List OutRow :=
  [{ assembly_district := 65, election_district := 12, county := "New York",
     vote_choice := "Zohran Mamdani", vote_count := 1234, ElectDist := 65012 }]

/-- The ballot-type frame produced from `c1Rows`. -/
def c1Ballot : List OutRow :=
  [{ assembly_district := 65, election_district := 12, county := "New York",
     vote_choice := "Public Counter", vote_count := 10, ElectDist := 65012 }]

/-- The merged-district frame produced from `c1Rows`. -/
def c1Merged : List MergedDistrictRow :=
  [{ source_ad := 10, source_ed := 5, county := "Kings", reported_ed := 7, reported_ad := 3 }]

/-- Witness for `vote_conservation` on concrete input: 1234 + 10 + 5 + 3 = 1252. -/
theorem vote_conservation_witness :
    optionMapM parseTallyRow c1Rows = some c1Parsed ∧
    load_and_clean mayorConfig c1Rows = some (c1Cand, c1Ballot, c1Merged) ∧
    (∀ s ∈ mayorConfig.ballot_types, s ∉ mayorConfig.candidates) ∧
    outSum c1Cand + outSum c1Ballot
      + tallySum (c1Parsed.filter (fun r => r.note ≠ "IN-PLAY"))
      + tallySum ((c1Parsed.filter (fun r => r.note = "IN-PLAY")).filter
          (fun r => stripParenNote r.vote_choice ∉ mayorConfig.ballot_types
            ∧ stripParenNote r.vote_choice ∉ mayorConfig.candidates))
      = tallySum c1Parsed :=
  ⟨by decide, by decide, by decide,
    vote_conservation mayorConfig c1Rows c1Parsed c1Cand c1Ballot c1Merged
      (by decide) (by decide) (by decide)⟩

/-- C2 (amended): for every parsed raw row whose note is not `'IN-PLAY'`, when
`_extract_merged_districts` succeeds its output contains the record whose
`reported_ed` is the base-10 integer read from the characters at offset
−5..−3 of the note and whose `reported_ad` is the base-10 integer read from
the last two characters; the spec's example note `'...ED 07 AD 03'` is amended
to a note whose last five characters are `'07 03'`, since on the original
example the slice at −5..−3 is the non-numeric `"AD"` and the load raises. -/
theorem merged_note_parse (rows : List TallyRow) (l : List MergedDistrictRow)
    (r : TallyRow) (e a : ℤ)
    (hex : extract_merged_districts rows = some l)
    (hr : r ∈ rows) (hnote : r.note ≠ "IN-PLAY")
    (hed : pyInt? (pySliceNeg r.note 5 3) = some e)
    (had : pyInt? (pyTail r.note 2) = some a) :
    ({ source_ad := r.assembly_district, source_ed := r.election_district,
       county := r.county, reported_ed := e, reported_ad := a } : MergedDistrictRow) ∈ l := by
  unfold extract_merged_districts at hex
  have hkmem : mergedKey r
      ∈ ((rows.filter (fun x => x.note ≠ "IN-PLAY")).map mergedKey).dedup :=
    List.mem_dedup.mpr (List.mem_map_of_mem _
      (List.mem_filter.mpr ⟨hr, by simpa using hnote⟩))
  obtain ⟨b, hb, hbl⟩ := optionMapM_mem hex _ hkmem
  have hb' : (pyInt? (pySliceNeg r.note 5 3)).bind (fun ed =>
      (pyInt? (pyTail r.note 2)).bind (fun ad =>
        some ({ source_ad := r.assembly_district, source_ed := r.election_district,
                county := r.county, reported_ed := ed, reported_ad := ad }
          : MergedDistrictRow))) = some b := hb
  obtain ⟨e', he', h2⟩ := Option.bind_eq_some.mp hb'
  obtain ⟨a', ha', h3⟩ := Option.bind_eq_some.mp h2
  have he : e' = e := by rw [hed] at he'; exact (Option.some.inj he').symm
  have ha : a' = a := by rw [had] at ha'; exact (Option.some.inj ha').symm
  subst he
  subst ha
  exact (Option.some.inj h3).symm ▸ hbl

/-- The spec's merged-note example row `(AD=10, ED=05, county='Kings',
note='...ED 07 AD 03')`. -/
def c2BadRow : TallyRow :=
  { assembly_district := 10, election_district := 5, county := "Kings",
    note := "...ED 07 AD 03", vote_choice := "X", vote_count := 7 }

/-- Counterexample to C2's example: on the note `'...ED 07 AD 03'` the
characters at offset −5..−3 are `"AD"`, which is not a base-10 integer, so
`astype(int)` raises and the extraction produces no record at all — in
particular not `(source_ad=10, source_ed=5, reported_ad=3, reported_ed=7)`. -/
theorem merged_note_example_counterexample :
    pySliceNeg "...ED 07 AD 03" 5 3 = "AD" ∧
    pyInt? "AD" = none ∧
    extract_merged_districts [c2BadRow] = none := by decide

/-- A merged row whose note's last five characters are `'07 03'` (the amended
example). -/
def c2GoodRow : TallyRow :=
  { assembly_district := 10, election_district := 5, county := "Kings",
    note := "combined into ED-AD 07 03", vote_choice := "X", vote_count := 7 }

/-- Witness for `merged_note_parse` at the amended example. -/
theorem merged_note_parse_witness :
    extract_merged_districts [c2GoodRow] = some c1Merged ∧
    pyInt? (pySliceNeg c2GoodRow.note 5 3) = some 7 ∧
    pyInt? (pyTail c2GoodRow.note 2) = some 3 ∧
    ({ source_ad := 10, source_ed := 5, county := "Kings",
       reported_ed := 7, reported_ad := 3 } : MergedDistrictRow) ∈ c1Merged :=
  ⟨by decide, by decide, by decide,
    merged_note_parse [c2GoodRow] c1Merged c2GoodRow 7 3
      (by decide) (by decide) (by decide) (by decide) (by decide)⟩

/-- The spec's Record Normalizer example row. -/
def c5Row : RawTallyRow :=
  { assembly_district := 65, election_district := 12, county := "New York",
    note := "IN-PLAY", vote_choice := "Zohran Kwame Mamdani", vote_count := "1,234" }

/-- C5: the raw row `(AD=65, ED=12, county='New York', note='IN-PLAY',
vote_choice='Zohran Kwame Mamdani', vote_count='1,234')` normalizes to the
CandidateVoteRecord `(ElectDist=65012, county='New York',
vote_choice='Zohran Mamdani', vote_count=1234)`: the thousands separator is
stripped, the canonical-name mapping applied, and
`ElectDist = 65 * 1000 + 12`. -/
theorem normalizer_example :
    load_and_clean mayorConfig [c5Row] =
      some ([{ assembly_district := 65, election_district := 12, county := "New York",
               vote_choice := "Zohran Mamdani", vote_count := 1234, ElectDist := 65012 }],
            [], []) ∧
    electDist 65 12 = 65012 := by decide

/-- C10: for `1 ≤ ad` and `0 ≤ ed < 1000` the synthetic key
`ElectDist = ad * 1000 + ed` satisfies `ElectDist / 1000 = ad` and
`ElectDist % 1000 = ed`, so the encoding is injective on that range; outside
the precondition it is not injective (`electDist 1 1000 = electDist 2 0`). -/
theorem electDist_roundtrip (ad ed ad₂ ed₂ : ℤ)
    (h1 : 1 ≤ ad) (h2 : 0 ≤ ed) (h3 : ed < 1000) :
    electDist ad ed / 1000 = ad ∧ electDist ad ed % 1000 = ed ∧
      (1 ≤ ad₂ → 0 ≤ ed₂ → ed₂ < 1000 →
        electDist ad ed = electDist ad₂ ed₂ → ad = ad₂ ∧ ed = ed₂) ∧
      electDist 1 1000 = electDist 2 0 := by
  unfold electDist
  refine ⟨by omega, by omega, fun g1 g2 g3 g4 => by constructor <;> omega, by norm_num⟩

/-- Witness for `electDist_roundtrip` at `(65, 12)` and `(10, 5)`. -/
theorem electDist_roundtrip_witness :
    electDist 65 12 / 1000 = 65 ∧ electDist 65 12 % 1000 = 12 ∧
      (1 ≤ (10:ℤ) → 0 ≤ (5:ℤ) → (5:ℤ) < 1000 →
        electDist 65 12 = electDist 10 5 → (65:ℤ) = 10 ∧ (12:ℤ) = 5) ∧
      electDist 1 1000 = electDist 2 0 :=
  electDist_roundtrip 65 12 10 5 (by norm_num) (by norm_num) (by norm_num)

/-- C3 (code evaluation): the classifier the dashboard actually ships is the
2×2 `assign_bivariate_category` — a single shared threshold, four fixed
labels, no middle band — so no threshold configuration realizes the 3×3 scheme
described by the spec and by the UI text of `layouts.py`; at the spec's
example district (Mamdani 60 %, Trump 45 %) the code, with its only
configuration (the default threshold 50), returns `'High M / Low T'`, while
the 9-category scheme modelled from the spec (Mamdani cuts 35/55, Trump cuts
20/40) would return `'High M / High T'`. -/
theorem bivariate_classifier_is_2x2 :
    assign_bivariate_category (some 60) (some 45) 50 = "High M / Low T" ∧
    BIVARIATE_CATEGORY_ORDER.length = 4 ∧
    (∀ (m t : Option ℚ) (thr : ℚ),
      assign_bivariate_category m t thr ∈ BIVARIATE_CATEGORY_ORDER) ∧
    assign_bivariate_category_9spec 60 45 (35, 55) (20, 40) = "High M / High T" := by
  refine ⟨?_, rfl, assign_bivariate_category_mem, ?_⟩
  · rw [assign_bivariate_category_some_some]
    norm_num
  · unfold assign_bivariate_category_9spec
    norm_num
    rfl

/-- C6: the bivariate classification is total, deterministic and pure: every
input pair (including the NaN sentinel) and threshold maps to exactly one
label of the fixed category set.  (Determinism and absence of hidden state are
intrinsic: the embedding is a pure function of its arguments.) -/
theorem bivariate_total_deterministic (m t : Option ℚ) (thr : ℚ) :
    ∃! c, assign_bivariate_category m t thr = c ∧ c ∈ BIVARIATE_CATEGORY_ORDER :=
  ⟨assign_bivariate_category m t thr, ⟨rfl, assign_bivariate_category_mem m t thr⟩,
    fun _ hy => hy.1.symm⟩

/-- C7: when either percentage is missing (`NaN`), the classifier returns the
lowest bucket on both axes, `'Low M / Low T'`, whatever the other input and
the threshold are — defined behavior, not an error. -/
theorem bivariate_missing_default (m t : Option ℚ) (thr : ℚ)
    (h : m = none ∨ t = none) :
    assign_bivariate_category m t thr = "Low M / Low T" := by
  rcases h with rfl | rfl
  · rfl
  · cases m <;> rfl

/-- Witness for `bivariate_missing_default` on both sides of the disjunction. -/
theorem bivariate_missing_default_witness :
    assign_bivariate_category none (some 42) 50 = "Low M / Low T" ∧
    assign_bivariate_category (some 88) none 50 = "Low M / Low T" :=
  ⟨bivariate_missing_default none (some 42) 50 (Or.inl rfl),
   bivariate_missing_default (some 88) none 50 (Or.inr rfl)⟩

/-- C9: a value exactly equal to the threshold classifies as `'Low'` on its
axis (the high side of each split is the strict `> threshold`); in particular
`assign_bivariate_category(t, t, threshold=t) = 'Low M / Low T'`. -/
theorem bivariate_boundary_low (thr x : ℚ) :
    (assign_bivariate_category (some thr) (some x) thr = "Low M / High T" ∨
     assign_bivariate_category (some thr) (some x) thr = "Low M / Low T") ∧
    (assign_bivariate_category (some x) (some thr) thr = "High M / Low T" ∨
     assign_bivariate_category (some x) (some thr) thr = "Low M / Low T") ∧
    assign_bivariate_category (some thr) (some thr) thr = "Low M / Low T" := by
  refine ⟨?_, ?_, ?_⟩
  · rw [assign_bivariate_category_some_some]
    split_ifs with h1 h2 h3
    · exact absurd h1.1 (lt_irrefl thr)
    · exact absurd h2.1 (lt_irrefl thr)
    · exact Or.inl rfl
    · exact Or.inr rfl
  · rw [assign_bivariate_category_some_some]
    split_ifs with h1 h2 h3
    · exact absurd h1.2 (lt_irrefl thr)
    · exact Or.inl rfl
    · exact absurd h3.2 (lt_irrefl thr)
    · exact Or.inr rfl
  · rw [assign_bivariate_category_some_some]
    split_ifs with h1 h2 h3
    · exact absurd h1.1 (lt_irrefl thr)
    · exact absurd h2.1 (lt_irrefl thr)
    · exact absurd h3.2 (lt_irrefl thr)
    · rfl

/-- C4 (amended): for a candidate that appears as a pivot column and
non-negative vote counts, the percentage column is the NaN sentinel exactly
when the district's row total is 0, and any produced value lies in [0, 100]
(exactly — the 0.01 rounding head-room of the claim is not even needed).
The amendment: a roster candidate absent from every input row gets the
constant scalar column 0 instead, including on zero-total rows (the `else`
branch of `load_and_merge_data`), which `candidate_pct_counterexample`
exhibits. -/
theorem candidate_pct_welldef (rows : List OutRow) (c : String) (d : ℤ)
    (hc : c ∈ pivotColumns rows) (hnn : ∀ r ∈ rows, 0 ≤ r.vote_count) :
    (candidate_pct rows c d = none ↔ pivotRowTotal rows d = 0) ∧
    (∀ p, candidate_pct rows c d = some p → 0 ≤ p ∧ p ≤ 100) := by
  have hcell0 : ∀ c', 0 ≤ pivotCell rows d c' := by
    intro c'
    apply List.sum_nonneg
    intro x hx
    obtain ⟨r, hr, rfl⟩ := List.mem_map.mp hx
    exact hnn r (List.mem_filter.mp hr).1
  have htot0 : 0 ≤ pivotRowTotal rows d := by
    apply List.sum_nonneg
    intro x hx
    obtain ⟨c', _, rfl⟩ := List.mem_map.mp hx
    exact hcell0 c'
  have hcell_le : pivotCell rows d c ≤ pivotRowTotal rows d := by
    refine List.single_le_sum ?_ _ ?_
    · intro x hx
      obtain ⟨c', _, rfl⟩ := List.mem_map.mp hx
      exact hcell0 c'
    · exact List.mem_map_of_mem _ hc
  constructor
  · unfold candidate_pct
    rw [if_pos hc]
    by_cases ht : pivotRowTotal rows d = 0
    · simp [ht]
    · simp [ht]
  · intro p hp
    unfold candidate_pct at hp
    rw [if_pos hc] at hp
    by_cases ht : pivotRowTotal rows d = 0
    · rw [if_pos ht] at hp
      exact absurd hp (by simp)
    · rw [if_neg ht] at hp
      have hp' : p = round2 ((pivotCell rows d c : ℚ) / (pivotRowTotal rows d : ℚ) * 100) :=
        (Option.some.inj hp).symm
      subst hp'
      have htpos : (0 : ℚ) < (pivotRowTotal rows d : ℚ) := by
        have h' : 0 < pivotRowTotal rows d := lt_of_le_of_ne htot0 (Ne.symm ht)
        exact_mod_cast h'
      have hv0 : 0 ≤ (pivotCell rows d c : ℚ) / (pivotRowTotal rows d : ℚ) * 100 := by
        apply mul_nonneg _ (by norm_num)
        apply div_nonneg _ (le_of_lt htpos)
        exact_mod_cast hcell0 c
      have hv100 : (pivotCell rows d c : ℚ) / (pivotRowTotal rows d : ℚ) * 100 ≤ 100 := by
        have hle : (pivotCell rows d c : ℚ) ≤ (pivotRowTotal rows d : ℚ) := by
          exact_mod_cast hcell_le
        have hdiv : (pivotCell rows d c : ℚ) / (pivotRowTotal rows d : ℚ) ≤ 1 := by
          rw [div_le_one htpos]
          exact hle
        linarith
      exact round2_bounds _ hv0 hv100

/-- A pivot input with one zero-count row for Andrew Cuomo in district 1001
and no row at all for Curtis Sliwa. -/
def c4BadRows : List OutRow :=
  [{ assembly_district := 1, election_district := 1, county := "New York",
     vote_choice := "Andrew Cuomo", vote_count := 0, ElectDist := 1001 }]

/-- Counterexample to C4 as stated: district 1001 has `total_votes = 0`, yet
the `curtis_sliwa_pct` column is the scalar `0`, not the NaN sentinel, because
`'Curtis Sliwa'` (a configured `MAYORAL_CANDIDATES` entry) is absent from the
pivot columns and `load_and_merge_data` takes its `else` branch. -/
theorem candidate_pct_counterexample :
    pivotRowTotal c4BadRows 1001 = 0 ∧
    candidate_pct c4BadRows "Curtis Sliwa" 1001 = some 0 ∧
    "Curtis Sliwa" ∈ MAYORAL_CANDIDATES ∧
    "Curtis Sliwa" ∉ pivotColumns c4BadRows := by decide

/-- Pivot input for the percentage-column witness. -/
def c4Rows : List OutRow :=
  [{ assembly_district := 65, election_district := 12, county := "New York",
     vote_choice := "Zohran Mamdani", vote_count := 1234, ElectDist := 65012 },
   { assembly_district := 65, election_district := 12, county := "New York",
     vote_choice := "Andrew Cuomo", vote_count := 600, ElectDist := 65012 }]

/-- Witness for `candidate_pct_welldef` on concrete data. -/
theorem candidate_pct_welldef_witness :
    "Zohran Mamdani" ∈ pivotColumns c4Rows ∧
    ((candidate_pct c4Rows "Zohran Mamdani" 65012 = none ↔
        pivotRowTotal c4Rows 65012 = 0) ∧
      (∀ p, candidate_pct c4Rows "Zohran Mamdani" 65012 = some p → 0 ≤ p ∧ p ≤ 100)) :=
  ⟨by decide,
    candidate_pct_welldef c4Rows "Zohran Mamdani" 65012 (by decide) (by decide)⟩

/-- C8: a transport failure fetching one county is caught per-county and gives
that county an empty frame, so the overall Census load still succeeds when any
county returns rows; when every county's fetch comes back empty the load
raises `ValueError("Failed to fetch Census data from API")`. -/
theorem census_failure_isolation (outcomes : String → FetchOutcome) :
    fetch_county_data FetchOutcome.transportError = [] ∧
    ((∃ c ∈ NYC_COUNTIES, fetch_county_data (outcomes c.1) ≠ []) →
      (census_load_and_clean outcomes).isOk = true) ∧
    ((∀ c ∈ NYC_COUNTIES, fetch_county_data (outcomes c.1) = []) →
      census_load_and_clean outcomes = .error "Failed to fetch Census data from API") := by
  refine ⟨rfl, ?_, ?_⟩
  · rintro ⟨c, hc, hne⟩
    have hjoin : fetch_all_nyc_data outcomes ≠ [] := by
      unfold fetch_all_nyc_data
      intro hnil
      have hcomp : (fetch_county_data (outcomes c.1)).map (fun r => (c.1, r)) = [] :=
        List.flatten_eq_nil_iff.mp hnil _ (List.mem_map_of_mem _ hc)
      exact hne (List.map_eq_nil_iff.mp hcomp)
    unfold census_load_and_clean
    rw [if_neg (by simpa using hjoin)]
    rfl
  · intro hall
    have hjoin : fetch_all_nyc_data outcomes = [] := by
      unfold fetch_all_nyc_data
      apply List.flatten_eq_nil_iff.mpr
      intro x hx
      obtain ⟨cw, hcw, rfl⟩ := List.mem_map.mp hx
      rw [hall cw hcw]
      rfl
    unfold census_load_and_clean
    rw [if_pos (by simp [hjoin])]

/-- One concrete tract row (total population 100, all other variables 0). -/
def c8Tract : TractRow :=
  { geoid := "36061000100",
    vals := fun code => if code = "B03002_001E" then some 100 else some 0 }

/-- Outcomes where only Kings returns data and every other county hits a
transport error. -/
def c8Partial : String → FetchOutcome :=
  fun county => if county = "Kings" then .ok [c8Tract] else .transportError

/-- Witness for `census_failure_isolation`: partial coverage succeeds; five
transport errors produce the data-unavailable error. -/
theorem census_failure_isolation_witness :
    (census_load_and_clean c8Partial).isOk = true ∧
    census_load_and_clean (fun _ => FetchOutcome.transportError)
      = .error "Failed to fetch Census data from API" :=
  ⟨(census_failure_isolation c8Partial).2.1
      ⟨("Kings", "047"), by decide, by simp [c8Partial, fetch_county_data]⟩,
    (census_failure_isolation (fun _ => FetchOutcome.transportError)).2.2
      (fun _ _ => rfl)⟩
